import Mathlib

/-
Verification of the STRM Stack CLI module registration and code-generation
pipeline (src/utils/cliUtils.ts). The TypeScript source is shallowly embedded:
pure helpers become Lean functions, the effectful pipeline becomes explicit
state passing over a Disk record, and possible I/O failures of each write are
injected through boolean flags in an Env record. JS objects (Record<string, T>)
are embedded as association lists that keep insertion order, matching
Object.keys iteration order.
-/

/-- Standardized scaffold outcome: a success flag plus an optional message
(ScaffoldOutput in src/@types/strm.d.ts). -/
structure ScaffoldOutput where
  success : Bool
  message : Option String
deriving DecidableEq

/-- Modelled from the spec: buildScaffoldOutput lives in the repository's
generalUtils module, which is not present under src/. Per the spec every
collaborator returns a structured outcome (success flag plus message); the
default value is not-successful with no message. -/
def buildScaffoldOutput : ScaffoldOutput :=
  { success := false, message := none }

/-- Embedding of the JS expression name.toLowerCase() for ASCII identifiers. -/
def jsToLower (s : String) : String :=
  String.mk (s.data.map Char.toLower)

/-- Splits a character list at every occurrence of the separator character,
the embedding of the JS expression s.split(sep) for a one-character sep. -/
def splitOnChar (sep : Char) : List Char → List (List Char)
  | [] => [[]]
  | c :: rest =>
    let r := splitOnChar sep rest
    if c = sep then [] :: r
    else
      match r with
      | [] => [[c]]
      | w :: ws => (c :: w) :: ws

/-- Embedding of the JS expression s.split('_'). -/
def jsSplitUnderscore (s : String) : List String :=
  (splitOnChar ('_') s.data).map String.mk

/-- Embedding of the word mapper used in regenerateSTRMModuleRoutes:
word.charAt(0).toUpperCase() + word.slice(1). -/
def capitalizeWord (w : String) : String :=
  match w.data with
  | [] => ""
  | c :: cs => String.mk (Char.toUpper c :: cs)

/-- Modelled from the spec: titleCase lives in the repository's generalUtils
module, which is not present under src/. Per the spec it capitalizes the first
letter of each underscore-delimited segment, non-destructively to the rest of
the segment, producing a type/class identifier (segments joined with no
separator, as the identical inline computation in regenerateSTRMModuleRoutes
does). -/
def titleCase (s : String) : String :=
  String.join ((jsSplitUnderscore s).map capitalizeWord)

/-- The inline corrected controller name in regenerateSTRMModuleRoutes:
controllerName.split('_').map(capitalize).join(''). -/
def correctedControllerName (c : String) : String :=
  String.join ((jsSplitUnderscore c).map capitalizeWord)

/-- STRMController from src/@types/strm.d.ts. -/
structure STRMController where
  controllerName : String
  endpointBase : String
  modelName : String
deriving DecidableEq

/-- STRMFERoute from src/@types/strm.d.ts. -/
structure STRMFERoute where
  path : String
  componentName : String
  componentPath : String
deriving DecidableEq

/-- STRMModule from src/@types/strm.d.ts. -/
structure STRMModule where
  controller : STRMController
  controllerOnly : Bool
  pages : List STRMFERoute
deriving DecidableEq

/-- STRMModulesFile from src/@types/strm.d.ts; the modules Record is embedded
as an association list in insertion order. -/
structure STRMModulesFile where
  appId : String
  lastUpdated : String
  modules : List (String × STRMModule)
deriving DecidableEq

/-- STRMModuleArgs from src/@types/strm.d.ts: controllerOnly and plural are
optional. -/
structure STRMModuleArgs where
  name : String
  controllerOnly : Option Bool
  plural : Option String
deriving DecidableEq

/-- The slice of STRMConfigFile read by the modelled operations (only the
frontend field is consulted by buildSTRMFrontendComponents). -/
structure STRMConfigFile where
  frontend : String
deriving DecidableEq

/-- Embedding of the JS truthiness choice (plural ? plural : name): an absent
or empty plural override falls back to the name. -/
def jsStringOr (plural : Option String) (name : String) : String :=
  match plural with
  | none => name
  | some p => if p = "" then name else p

/-- Embedding of the JS truthiness coercion (!!controllerOnly) on the optional
flag. -/
def jsTruthy (b : Option Bool) : Bool :=
  b.getD false

/-- Strict lexicographic order on character lists by code point, used to
compare ISO-8601 timestamp strings (for fixed-length UTC ISO timestamps this
coincides with chronological order). -/
def charListLt : List Char → List Char → Bool
  | [], [] => false
  | [], _ :: _ => true
  | _ :: _, [] => false
  | a :: as, b :: bs =>
    decide (a.toNat < b.toNat) || (a = b && charListLt as bs)

/-- Strict lexicographic order on strings by code point. -/
def strLtB (a b : String) : Bool :=
  charListLt a.data b.data

/-- buildSTRMModule from src/utils/cliUtils.ts: constructs a module descriptor
from the command-line arguments. -/
def buildSTRMModule (moduleArgs : STRMModuleArgs) : STRMModule :=
  let name := moduleArgs.name
  let pluralizedName := jsStringOr moduleArgs.plural name
  let lowercaseName := jsToLower name
  let controller : STRMController :=
    { controllerName := lowercaseName ++ "_controller"
      modelName := lowercaseName ++ ".py"
      endpointBase := pluralizedName }
  let pages : List STRMFERoute :=
    if jsTruthy moduleArgs.controllerOnly then []
    else
      [ { path := "/" ++ pluralizedName
          componentName := titleCase name
          componentPath := titleCase pluralizedName ++ "/Index" }
      , { path := "/" ++ pluralizedName ++ "/:id"
          componentName := titleCase name ++ "Detail"
          componentPath := titleCase pluralizedName ++ "/" ++ titleCase name } ]
  { controller := controller
    controllerOnly := jsTruthy moduleArgs.controllerOnly
    pages := pages }

/-- The pair of route bindings one module contributes in
regenerateSTRMModuleRoutes (without the optional trailing separator). -/
def routePairChunk (moduleKey : String) (m : STRMModule) : String :=
  "        Route('/" ++ m.controller.endpointBase ++ "', "
    ++ correctedControllerName m.controller.controllerName ++ "),\n"
    ++ "        Route('/" ++ m.controller.endpointBase ++ "/\x7b" ++ moduleKey
    ++ "\x7d', " ++ correctedControllerName m.controller.controllerName ++ "),"

/-- The indexed forEach accumulation over Object.keys(modules) in
regenerateSTRMModuleRoutes: a newline separator is appended whenever the index
is not the last one. -/
def controllerRoutesGo (total : Nat) : Nat → List (String × STRMModule) → String
  | _, [] => ""
  | idx, (k, m) :: rest =>
    routePairChunk k m
      ++ (if idx = total - 1 then "" else "\n")
      ++ controllerRoutesGo total (idx + 1) rest

/-- The controllerRoutesString accumulated in regenerateSTRMModuleRoutes. -/
def controllerRoutesString (ms : List (String × STRMModule)) : String :=
  controllerRoutesGo ms.length 0 ms

/-- The spec phrasing of the route body: per-module chunks joined with a
trailing separator on all but the last emitted module. Stated from the spec's
words, to be compared with the indexed accumulation of the source. -/
def routeChunksSpecJoin : List (String × STRMModule) → String
  | [] => ""
  | [p] => routePairChunk p.1 p.2
  | p :: q :: rest => routePairChunk p.1 p.2 ++ "\n" ++ routeChunksSpecJoin (q :: rest)

/-- The full generated strm_routes/__init__.py contents in
regenerateSTRMModuleRoutes: note the header interpolates the branded locale
string and the current locale date string. -/
def routesFileString (brand date : String) (f : STRMModulesFile) : String :=
  "# Generated by the " ++ brand ++ " " ++ date
    ++ "\n# core imports\nfrom starlette.routing import Mount, Route\n# "
    ++ brand
    ++ " imports\nfrom strm_controllers import *\n\n\n# generated routes\nroutes = [\n    Mount('/api', routes=[\n"
    ++ controllerRoutesString f.modules
    ++ "\n    ])\n]\n"

theorem string_append_empty (s : String) : s ++ "" = s := by
  apply congrArg String.mk
  exact List.append_nil s.data

theorem controllerRoutesGo_eq_specJoin (l : List (String × STRMModule)) :
    ∀ idx : Nat, controllerRoutesGo (idx + l.length) idx l = routeChunksSpecJoin l := by
  induction l with
  | nil => intro idx; rfl
  | cons p rest ih =>
    intro idx
    cases rest with
    | nil =>
      show routePairChunk p.1 p.2 ++ (if idx = idx + 1 - 1 then "" else "\n")
          ++ controllerRoutesGo (idx + 1) (idx + 1) [] = routePairChunk p.1 p.2
      rw [if_pos (by omega)]
      show routePairChunk p.1 p.2 ++ "" ++ "" = routePairChunk p.1 p.2
      rw [string_append_empty, string_append_empty]
    | cons q t =>
      have hne : idx ≠ idx + (q :: t).length + 1 - 1 := by
        simp only [List.length_cons]; omega
      show routePairChunk p.1 p.2
          ++ (if idx = idx + (q :: t).length + 1 - 1 then "" else "\n")
          ++ controllerRoutesGo (idx + (q :: t).length + 1) (idx + 1) (q :: t)
          = routePairChunk p.1 p.2 ++ "\n" ++ routeChunksSpecJoin (q :: t)
      rw [if_neg hne]
      have harg : idx + (q :: t).length + 1 = (idx + 1) + (q :: t).length := by omega
      rw [harg, ih (idx + 1)]

/-- Association-list assignment with JS Record semantics: assignment to an
existing key replaces its value in place (keeping its position), otherwise the
entry is appended in insertion order. Also models a filesystem write that
overwrites an existing path. -/
def recordSet {α : Type} : List (String × α) → String → α → List (String × α)
  | [], k, v => [(k, v)]
  | (k0, v0) :: rest, k, v =>
    if k0 = k then (k, v) :: rest else (k0, v0) :: recordSet rest k v

/-- Association-list lookup with JS Record semantics. -/
def recordLookup {α : Type} : List (String × α) → String → Option α
  | [], _ => none
  | (k0, v0) :: rest, k => if k0 = k then some v0 else recordLookup rest k

/-- Number of entries stored under a key. -/
def countKey {α : Type} (l : List (String × α)) (k : String) : Nat :=
  l.countP (fun p => decide (p.1 = k))

/-- The ambient inputs of one pipeline invocation: the branded locale string,
the rendered current date (new Date().toLocaleDateString()), the current ISO
timestamp (new Date().toISOString()), and one failure-injection flag per
fallible filesystem write (a raised I/O error in the corresponding try/catch
of the source). -/
structure Env where
  brand : String
  date : String
  now : String
  writeModulesFails : Bool
  writeModelFails : Bool
  writeControllerFails : Bool
  writeRoutesFails : Bool
  appendImportsFails : Bool
  writePageFails : Bool
deriving DecidableEq

/-- The project-directory state touched by the pipeline. registryFile is the
parsed contents of strm_modules/strm_modules.json (none when the file is
missing, unreadable or not well-formed JSON); configFile likewise for
strm_config/strm_config.json; modelFiles, controllerFiles and feFiles map
written paths to contents; routesFile is strm_routes/__init__.py; autoImports
is the list of lines appended to strm_controllers/__init__.py; feDirs is the
set of existing frontend page directories. -/
structure Disk where
  registryFile : Option STRMModulesFile
  configFile : Option STRMConfigFile
  modelFiles : List (String × String)
  controllerFiles : List (String × String)
  routesFile : Option String
  autoImports : List String
  feDirs : List String
  feFiles : List (String × String)
deriving DecidableEq

/-- getSTRMModules from src/utils/cliUtils.ts: returns the parsed registry, or
none when reading or parsing fails. -/
def getSTRMModules (d : Disk) : Option STRMModulesFile :=
  d.registryFile

/-- writeSTRMModulesFile from src/utils/cliUtils.ts: stamps lastUpdated with
the current ISO timestamp, then writes the serialized registry; on an I/O
error nothing is persisted and a failure outcome is returned. -/
def writeSTRMModulesFile (env : Env) (strmModulesFile : STRMModulesFile) (d : Disk) :
    ScaffoldOutput × Disk :=
  if env.writeModulesFails then
    ({ success := false, message := some "EIO" }, d)
  else
    ({ success := true, message := none },
     { d with registryFile := some { strmModulesFile with lastUpdated := env.now } })

/-- The generated model file contents in writeSTRMModelFile. -/
def modelFileContents (brand date modelName : String) : String :=
  "# Generated by the " ++ brand ++ " " ++ date
    ++ "\n# Core Imports\nimport datetime\nimport mongoengine as me\n\n\nclass "
    ++ titleCase modelName
    ++ "(me.Document):\n\t\"\"\"\n\tAutogenerated:\n\tRepresents a "
    ++ modelName
    ++ "\n\t\"\"\"\n\tlabel = me.StringField(required=True, max_length=200)\n\tupdated_at = me.DateTimeField(default=datetime.datetime.utcnow)\n\n    "

/-- The path strm_models/<modelName>.py used by writeSTRMModelFile. -/
def modelFilePath (modelName : String) : String :=
  "strm_models/" ++ modelName ++ ".py"

/-- writeSTRMModelFile from src/utils/cliUtils.ts. -/
def writeSTRMModelFile (env : Env) (modelName : String) (d : Disk) :
    ScaffoldOutput × Disk :=
  if env.writeModelFails then
    ({ success := false, message := some "EIO" }, d)
  else
    ({ success := true, message := none },
     { d with
        modelFiles :=
          recordSet d.modelFiles (modelFilePath modelName)
            (modelFileContents env.brand env.date modelName) })

/-- The generated controller file contents in writeSTRMControllerFile. -/
def controllerFileContents (brand date controllerName : String) : String :=
  "# Generated by the " ++ brand ++ " " ++ date
    ++ "\n# Core imports\nfrom starlette.endpoints import HTTPEndpoint\nfrom starlette.responses import JSONResponse\n\n\nclass "
    ++ titleCase controllerName
    ++ "Controller(HTTPEndpoint):\n\t\"\"\"\n\tAutogenerated: Represents a "
    ++ brand
    ++ " Controller\n\t\"\"\"\n\tdef get(self, request):\n\t\treturn JSONResponse(\x7b\n\t\t\t\"success\": True,\n\t\t\t\"message\": \"Controller generated by the CLI. Edit 'strm_models/"
    ++ controllerName
    ++ ".py as needed\"\n\t\t\x7d)\n\n"

/-- The path strm_controllers/<controllerName>_controller.py used by
writeSTRMControllerFile. -/
def controllerFilePath (controllerName : String) : String :=
  "strm_controllers/" ++ controllerName ++ "_controller.py"

/-- writeSTRMControllerFile from src/utils/cliUtils.ts. -/
def writeSTRMControllerFile (env : Env) (controllerName : String) (d : Disk) :
    ScaffoldOutput × Disk :=
  if env.writeControllerFails then
    ({ success := false, message := some "EIO" }, d)
  else
    ({ success := true, message := none },
     { d with
        controllerFiles :=
          recordSet d.controllerFiles (controllerFilePath controllerName)
            (controllerFileContents env.brand env.date controllerName) })

/-- The single line appended by updateSTRMModuleRouteAutoImports. -/
def autoImportLine (controllerName : String) : String :=
  "from ." ++ controllerName ++ "_controller import "
    ++ titleCase controllerName ++ "Controller\n"

/-- updateSTRMModuleRouteAutoImports from src/utils/cliUtils.ts: appends one
auto-import line to strm_controllers/__init__.py. -/
def updateSTRMModuleRouteAutoImports (env : Env) (controllerName : String) (d : Disk) :
    ScaffoldOutput × Disk :=
  if env.appendImportsFails then
    ({ success := false, message := some "EIO" }, d)
  else
    ({ success := true, message := none },
     { d with autoImports := d.autoImports ++ [autoImportLine controllerName] })

/-- regenerateSTRMModuleRoutes from src/utils/cliUtils.ts: re-reads the
registry from disk and rewrites strm_routes/__init__.py in full. -/
def regenerateSTRMModuleRoutes (env : Env) (d : Disk) : ScaffoldOutput × Disk :=
  match getSTRMModules d with
  | none => ({ success := false, message := some "Failed to read modules file" }, d)
  | some modulesJSON =>
    if env.writeRoutesFails then
      ({ success := false, message := some "EIO" }, d)
    else
      ({ success := true, message := none },
       { d with routesFile := some (routesFileString env.brand env.date modulesJSON) })

/-- Embedding of the JS expression hay.includes(needle). -/
def listContainsSub (hay needle : List Char) : Bool :=
  match hay with
  | [] => needle.isEmpty
  | _ :: t => needle.isPrefixOf hay || listContainsSub t needle

/-- Embedding of the JS expression s.includes(sub). -/
def jsIncludes (s sub : String) : Bool :=
  listContainsSub s.data sub.data

/-- Modelled from the spec: generateIndexPage lives in
src/cliHelpers/fePageHelpers/generateIndexPage.ts, which is not present under
src/. Per the spec it is a pure generator from the frontend option and the
component name to frontend page source text. -/
def generateIndexPage (frontend componentName : String) : String :=
  "// index page (" ++ frontend ++ ") component " ++ componentName

/-- Modelled from the spec: generateDetailsPage lives in
src/cliHelpers/fePageHelpers/generateDetailsPage.ts, which is not present
under src/. Per the spec it is a pure generator from the frontend option, the
component name and path, and the originating controller name to frontend page
source text. -/
def generateDetailsPage (frontend componentName componentPath controllerName : String) : String :=
  "// details page (" ++ frontend ++ ") component " ++ componentName ++ " at "
    ++ componentPath ++ " fetching " ++ controllerName

/-- The page-writing loop of buildSTRMFrontendComponents: each page descriptor
produces Index.tsx (when its componentPath contains Index) or
<componentName>.tsx under the module's frontend pages directory. -/
def writePageFiles (feBasePath frontend controllerName : String)
    (files : List (String × String)) : List STRMFERoute → List (String × String)
  | [] => files
  | page :: rest =>
    let isIndexPage := jsIncludes page.componentPath "Index"
    let fileName := if isIndexPage then "Index.tsx" else page.componentName ++ ".tsx"
    let pageData :=
      if isIndexPage then generateIndexPage frontend page.componentName
      else generateDetailsPage frontend page.componentName page.componentPath controllerName
    writePageFiles feBasePath frontend controllerName
      (recordSet files (feBasePath ++ "/" ++ fileName) pageData) rest

/-- buildSTRMFrontendComponents from src/utils/cliUtils.ts: reads the config
and the registry, creates the module's frontend pages directory
(non-recursive mkdir: raises when the directory already exists), then writes
one component file per page descriptor. -/
def buildSTRMFrontendComponents (env : Env) (moduleKey pluralizedModuleName : String)
    (d : Disk) : ScaffoldOutput × Disk :=
  match d.configFile with
  | none => ({ success := false, message := some "Failed to load project config" }, d)
  | some strmConfig =>
    match getSTRMModules d with
    | none => ({ success := false, message := some "Failed to load strm modules" }, d)
    | some strmModules =>
      let feBasePath :=
        "strm_fe_" ++ strmConfig.frontend ++ "/src/pages/" ++ titleCase pluralizedModuleName
      if feBasePath ∈ d.feDirs then
        ({ success := false, message := some "EEXIST" }, d)
      else
        let d1 := { d with feDirs := d.feDirs ++ [feBasePath] }
        match recordLookup strmModules.modules moduleKey with
        | none => ({ success := false, message := some "Invalid STRM Module" }, d1)
        | some m =>
          if env.writePageFails then
            ({ success := false, message := some "EIO" }, d1)
          else
            ({ success := true, message := none },
             { d1 with
                feFiles :=
                  writePageFiles feBasePath strmConfig.frontend
                    m.controller.controllerName d1.feFiles m.pages })

/-- createSTRMModule from src/utils/cliUtils.ts: the orchestrated pipeline —
load registry, upsert the module and persist, write model file, write
controller file, rewrite routes, append the auto-import line, build frontend
components; the first failing step short-circuits with a failure outcome. -/
def createSTRMModule (env : Env) (moduleArgs : STRMModuleArgs) (d : Disk) :
    ScaffoldOutput × Disk :=
  match getSTRMModules d with
  | none => ({ success := false, message := some "Failed to read STRMModules file" }, d)
  | some strmModulesFileData =>
    let updated :=
      { strmModulesFileData with
          modules :=
            recordSet strmModulesFileData.modules moduleArgs.name
              (buildSTRMModule moduleArgs) }
    let r1 := writeSTRMModulesFile env updated d
    if r1.1.success = false then
      ({ success := false, message := some "Failed to write Modules" }, r1.2)
    else
      let r2 := writeSTRMModelFile env moduleArgs.name r1.2
      if r2.1.success = false then
        ({ success := false, message := r2.1.message }, r2.2)
      else
        let r3 := writeSTRMControllerFile env moduleArgs.name r2.2
        if r3.1.success = false then
          ({ success := false, message := r3.1.message }, r3.2)
        else
          let r4 := regenerateSTRMModuleRoutes env r3.2
          if r4.1.success = false then
            ({ success := false, message := r4.1.message }, r4.2)
          else
            let r5 := updateSTRMModuleRouteAutoImports env moduleArgs.name r4.2
            if r5.1.success = false then
              ({ success := false, message := r5.1.message }, r5.2)
            else
              let r6 :=
                buildSTRMFrontendComponents env moduleArgs.name
                  (jsStringOr moduleArgs.plural moduleArgs.name) r5.2
              if r6.1.success = false then
                ({ success := false, message := r6.1.message }, r6.2)
              else
                ({ success := true, message := none }, r6.2)

/-- The disk state reached by createSTRMModule after the registry persist, the
model write, the controller write, the route rewrite and the auto-import
append have all succeeded (derived from the pipeline, used to state what the
final frontend step receives). -/
def diskAfterImports (env : Env) (a : STRMModuleArgs) (d : Disk) (f : STRMModulesFile) : Disk :=
  { d with
      registryFile :=
        some { appId := f.appId, lastUpdated := env.now,
               modules := recordSet f.modules a.name (buildSTRMModule a) }
      modelFiles :=
        recordSet d.modelFiles (modelFilePath a.name)
          (modelFileContents env.brand env.date a.name)
      controllerFiles :=
        recordSet d.controllerFiles (controllerFilePath a.name)
          (controllerFileContents env.brand env.date a.name)
      routesFile :=
        some (routesFileString env.brand env.date
          { appId := f.appId, lastUpdated := env.now,
            modules := recordSet f.modules a.name (buildSTRMModule a) })
      autoImports := d.autoImports ++ [autoImportLine a.name] }

/-- A sample environment with no injected write failures. -/
def envSample : Env :=
  { brand := "STORM", date := "1/1/2024", now := "2024-01-02T00:00:00.000Z",
    writeModulesFails := false, writeModelFails := false, writeControllerFails := false,
    writeRoutesFails := false, appendImportsFails := false, writePageFails := false }

/-- A sample environment whose route-table write raises an I/O error. -/
def envRoutesFail : Env :=
  { envSample with writeRoutesFails := true }

/-- A sample environment invoked at a strictly later clock reading. -/
def envLater : Env :=
  { envSample with now := "2024-01-03T00:00:00.000Z" }

/-- Sample module-creation arguments. -/
def argsTag : STRMModuleArgs :=
  { name := "tag", controllerOnly := none, plural := some "tags" }

/-- A sample persisted registry already holding a module under key tag. -/
def regSample : STRMModulesFile :=
  { appId := "app-1", lastUpdated := "2024-01-01T00:00:00.000Z",
    modules := [("tag", buildSTRMModule { name := "tag", controllerOnly := none, plural := none })] }

/-- The sample registry with a different appId and lastUpdated but the same
modules map. -/
def regSampleAlt : STRMModulesFile :=
  { appId := "app-2", lastUpdated := "2020-01-01T00:00:00.000Z",
    modules := regSample.modules }

/-- A sample project directory whose registry is regSample. -/
def diskSample : Disk :=
  { registryFile := some regSample, configFile := some { frontend := "react" },
    modelFiles := [], controllerFiles := [], routesFile := none, autoImports := [],
    feDirs := [], feFiles := [] }

/-- The sample project directory with the equivalent registry regSampleAlt. -/
def diskSampleAlt : Disk :=
  { diskSample with registryFile := some regSampleAlt }

/-- The sample project directory with the registry file missing. -/
def diskNoRegistry : Disk :=
  { diskSample with registryFile := none }

/-- The sample project directory where the frontend pages directory for the
pluralized tag module already exists. -/
def diskWithFeDir : Disk :=
  { diskSample with feDirs := ["strm_fe_react/src/pages/Tags"] }

theorem recordLookup_recordSet_self {α : Type} (l : List (String × α)) (k : String) (v : α) :
    recordLookup (recordSet l k v) k = some v := by
  induction l with
  | nil => simp [recordSet, recordLookup]
  | cons hd tl ih =>
    obtain ⟨k0, v0⟩ := hd
    by_cases h : k0 = k
    · simp [recordSet, recordLookup, h]
    · simp [recordSet, recordLookup, h, ih]

theorem recordLookup_recordSet_ne {α : Type} (l : List (String × α)) (k k' : String) (v : α)
    (h : k' ≠ k) : recordLookup (recordSet l k v) k' = recordLookup l k' := by
  induction l with
  | nil => simp [recordSet, recordLookup, Ne.symm h]
  | cons hd tl ih =>
    obtain ⟨k0, v0⟩ := hd
    by_cases h0 : k0 = k
    · subst h0
      simp [recordSet, recordLookup, Ne.symm h]
    · simp only [recordSet, if_neg h0]
      by_cases h1 : k0 = k'
      · simp [recordLookup, h1]
      · simp [recordLookup, h1, ih]

theorem countKey_cons {α : Type} (p : String × α) (l : List (String × α)) (k : String) :
    countKey (p :: l) k = countKey l k + (if p.1 = k then 1 else 0) := by
  by_cases h : p.1 = k <;> simp [countKey, List.countP_cons, h]

theorem countKey_eq_zero_of_not_mem {α : Type} (l : List (String × α)) (k : String)
    (h : k ∉ l.map Prod.fst) : countKey l k = 0 := by
  induction l with
  | nil => simp [countKey]
  | cons hd tl ih =>
    simp only [List.map_cons, List.mem_cons] at h
    push_neg at h
    rw [countKey_cons, if_neg (fun hh => h.1 hh.symm), ih h.2]

theorem countKey_recordSet_nodup {α : Type} (l : List (String × α)) (k : String) (v : α)
    (hnd : (l.map Prod.fst).Nodup) : countKey (recordSet l k v) k = 1 := by
  induction l with
  | nil => simp [recordSet, countKey]
  | cons hd tl ih =>
    obtain ⟨k0, v0⟩ := hd
    simp only [List.map_cons, List.nodup_cons] at hnd
    by_cases h : k0 = k
    · subst h
      rw [show recordSet ((k0, v0) :: tl) k0 v = (k0, v) :: tl from by simp [recordSet]]
      rw [countKey_cons, countKey_eq_zero_of_not_mem tl k0 hnd.1]
      simp
    · simp only [recordSet, if_neg h]
      rw [countKey_cons, if_neg h, ih hnd.2]

theorem recordSet_length_of_mem {α : Type} (l : List (String × α)) (k : String) (v : α)
    (h : recordLookup l k ≠ none) : (recordSet l k v).length = l.length := by
  induction l with
  | nil => simp [recordLookup] at h
  | cons hd tl ih =>
    obtain ⟨k0, v0⟩ := hd
    by_cases h0 : k0 = k
    · simp [recordSet, h0]
    · simp only [recordLookup, if_neg h0] at h
      simp [recordSet, h0, ih h]

theorem writeSTRMModelFile_keeps_registry (env : Env) (n : String) (d : Disk) :
    ((writeSTRMModelFile env n d).2).registryFile = d.registryFile := by
  unfold writeSTRMModelFile; split <;> rfl

theorem writeSTRMControllerFile_keeps_registry (env : Env) (n : String) (d : Disk) :
    ((writeSTRMControllerFile env n d).2).registryFile = d.registryFile := by
  unfold writeSTRMControllerFile; split <;> rfl

theorem regenerateSTRMModuleRoutes_keeps_registry (env : Env) (d : Disk) :
    ((regenerateSTRMModuleRoutes env d).2).registryFile = d.registryFile := by
  unfold regenerateSTRMModuleRoutes getSTRMModules
  split <;> first | rfl | (split <;> rfl)

theorem updateAutoImports_keeps_registry (env : Env) (n : String) (d : Disk) :
    ((updateSTRMModuleRouteAutoImports env n d).2).registryFile = d.registryFile := by
  unfold updateSTRMModuleRouteAutoImports; split <;> rfl

theorem buildSTRMFrontendComponents_keeps_backend (env : Env) (k p : String) (d : Disk) :
    ((buildSTRMFrontendComponents env k p d).2).registryFile = d.registryFile
    ∧ ((buildSTRMFrontendComponents env k p d).2).modelFiles = d.modelFiles
    ∧ ((buildSTRMFrontendComponents env k p d).2).controllerFiles = d.controllerFiles
    ∧ ((buildSTRMFrontendComponents env k p d).2).routesFile = d.routesFile
    ∧ ((buildSTRMFrontendComponents env k p d).2).autoImports = d.autoImports := by
  cases hc : d.configFile with
  | none => simp [buildSTRMFrontendComponents, hc]
  | some cfg =>
    cases hr : d.registryFile with
    | none => simp [buildSTRMFrontendComponents, getSTRMModules, hc, hr]
    | some f =>
      by_cases hdir : ("strm_fe_" ++ cfg.frontend ++ "/src/pages/" ++ titleCase p) ∈ d.feDirs
      · simp [buildSTRMFrontendComponents, getSTRMModules, hc, hr, hdir]
      · cases hl : recordLookup f.modules k with
        | none => simp [buildSTRMFrontendComponents, getSTRMModules, hc, hr, hdir, hl]
        | some m =>
          by_cases hpf : env.writePageFails
          · simp [buildSTRMFrontendComponents, getSTRMModules, hc, hr, hdir, hl, hpf]
          · simp [buildSTRMFrontendComponents, getSTRMModules, hc, hr, hdir, hl, hpf]

theorem createSTRMModule_registry (env : Env) (a : STRMModuleArgs) (d : Disk) (f : STRMModulesFile)
    (hreg : d.registryFile = some f)
    (hw : env.writeModulesFails = false) :
    (createSTRMModule env a d).2.registryFile
      = some { appId := f.appId, lastUpdated := env.now,
               modules := recordSet f.modules a.name (buildSTRMModule a) } := by
  unfold createSTRMModule getSTRMModules
  rw [hreg]
  simp only [writeSTRMModulesFile, hw, Bool.false_eq_true, if_false]
  simp only [Bool.true_eq_false, if_false]
  by_cases h2 : env.writeModelFails
  · simp [writeSTRMModelFile, h2]
  · by_cases h3 : env.writeControllerFails
    · simp [writeSTRMModelFile, writeSTRMControllerFile, h2, h3]
    · by_cases h4 : env.writeRoutesFails
      · simp [writeSTRMModelFile, writeSTRMControllerFile, regenerateSTRMModuleRoutes,
          getSTRMModules, h2, h3, h4]
      · by_cases h5 : env.appendImportsFails
        · simp [writeSTRMModelFile, writeSTRMControllerFile, regenerateSTRMModuleRoutes,
            getSTRMModules, updateSTRMModuleRouteAutoImports, h2, h3, h4, h5]
        · simp only [writeSTRMModelFile, writeSTRMControllerFile, regenerateSTRMModuleRoutes,
            getSTRMModules, updateSTRMModuleRouteAutoImports, h2, h3, h4, h5,
            Bool.false_eq_true, Bool.true_eq_false, if_false]
          split <;>
            simp [(buildSTRMFrontendComponents_keeps_backend _ _ _ _).1]

theorem createSTRMModule_reduces (env : Env) (a : STRMModuleArgs) (d : Disk) (f : STRMModulesFile)
    (hreg : d.registryFile = some f)
    (h1 : env.writeModulesFails = false)
    (h2 : env.writeModelFails = false)
    (h3 : env.writeControllerFails = false)
    (h4 : env.writeRoutesFails = false)
    (h5 : env.appendImportsFails = false) :
    createSTRMModule env a d
      = (let r6 := buildSTRMFrontendComponents env a.name (jsStringOr a.plural a.name)
           (diskAfterImports env a d f)
         if r6.1.success = false then ({ success := false, message := r6.1.message }, r6.2)
         else ({ success := true, message := none }, r6.2)) := by
  unfold createSTRMModule getSTRMModules
  rw [hreg]
  simp only [writeSTRMModulesFile, writeSTRMModelFile, writeSTRMControllerFile,
    regenerateSTRMModuleRoutes, updateSTRMModuleRouteAutoImports, getSTRMModules,
    h1, h2, h3, h4, h5, Bool.false_eq_true, if_false, diskAfterImports]
  simp

theorem pipelineTail_snd (env : Env) (k p : String) (d5 : Disk) :
    (if (buildSTRMFrontendComponents env k p d5).1.success = false
     then ({ success := false, message := (buildSTRMFrontendComponents env k p d5).1.message },
           (buildSTRMFrontendComponents env k p d5).2)
     else (({ success := true, message := none } : ScaffoldOutput),
           (buildSTRMFrontendComponents env k p d5).2)).2
      = (buildSTRMFrontendComponents env k p d5).2 := by
  split <;> rfl

/-- C2: for every module key K in the registry with endpoint base E and
controller name C, the rebuilt route body gives that module exactly one chunk
of two route bindings — first the collection route for path /E, then the
single-resource route for path /E/\x7bK\x7d whose identifier segment is named after
the module key, both bound to the title-cased form of C — and the chunks of
the modules are emitted in registry iteration order joined by a trailing
separator on all but the last emitted module; concretely, module book yields
the collection route /book and the item route /book/\x7bbook\x7d bound to
BookController. -/
theorem routeTable_two_bindings_per_module :
    (∀ ms : List (String × STRMModule), controllerRoutesString ms = routeChunksSpecJoin ms)
    ∧ (∀ (k : String) (m : STRMModule),
        routePairChunk k m
          = ("        Route('/" ++ m.controller.endpointBase ++ "', "
              ++ correctedControllerName m.controller.controllerName ++ "),")
            ++ "\n"
            ++ ("        Route('/" ++ m.controller.endpointBase ++ "/\x7b" ++ k ++ "\x7d', "
              ++ correctedControllerName m.controller.controllerName ++ "),"))
    ∧ controllerRoutesString
        [("book", buildSTRMModule { name := "book", controllerOnly := none, plural := none })]
      = "        Route('/book', BookController),\n        Route('/book/\x7bbook\x7d', BookController)," := by
  refine ⟨?_, ?_, ?_⟩
  · intro ms
    have h := controllerRoutesGo_eq_specJoin ms 0
    simpa [controllerRoutesString] using h
  · intro k m
    unfold routePairChunk
    apply String.ext
    simp [String.data_append, List.append_assoc]
  · decide

/-- C3: for every module descriptor produced by buildSTRMModule, controllerOnly
is true exactly when the pages list is empty, and when controllerOnly is false
the pages list has exactly two entries — the index/list page followed by the
detail page, in that fixed order. -/
theorem module_pages_invariant (a : STRMModuleArgs) :
    ((buildSTRMModule a).controllerOnly = true ↔ (buildSTRMModule a).pages.length = 0)
    ∧ ((buildSTRMModule a).controllerOnly = false →
        (buildSTRMModule a).pages.length = 2
        ∧ ∃ p1 p2, (buildSTRMModule a).pages = [p1, p2]
            ∧ p1.path = "/" ++ jsStringOr a.plural a.name
            ∧ p1.componentPath = titleCase (jsStringOr a.plural a.name) ++ "/Index"
            ∧ p2.path = "/" ++ jsStringOr a.plural a.name ++ "/:id"
            ∧ p2.componentName = titleCase a.name ++ "Detail") := by
  by_cases h : jsTruthy a.controllerOnly
  · simp [buildSTRMModule, h]
  · simp [buildSTRMModule, h]
    exact ⟨_, _, ⟨rfl, rfl⟩, rfl, rfl, rfl, rfl⟩

theorem module_pages_invariant_witness :
    (buildSTRMModule { name := "book", controllerOnly := none, plural := none }).pages.length = 2 :=
  ((module_pages_invariant { name := "book", controllerOnly := none, plural := none }).2
    (by decide)).1

/-- C5: when the persisted registry cannot be loaded (missing, unreadable or
malformed file, modelled as an absent parsed registry), createSTRMModule
returns a failure outcome naming the registry read, and the project directory
is completely untouched: no registry write, no model or controller file, no
route-table rewrite, no auto-import append, no frontend component, and no
default registry is synthesized. -/
theorem registry_unavailable_no_writes (env : Env) (a : STRMModuleArgs) (d : Disk)
    (h : d.registryFile = none) :
    createSTRMModule env a d
      = ({ success := false, message := some "Failed to read STRMModules file" }, d) := by
  unfold createSTRMModule getSTRMModules
  rw [h]

theorem registry_unavailable_no_writes_witness :
    createSTRMModule envSample argsTag diskNoRegistry
      = ({ success := false, message := some "Failed to read STRMModules file" }, diskNoRegistry) :=
  registry_unavailable_no_writes envSample argsTag diskNoRegistry rfl

/-- C8: the pluralized name used for the endpoint base and the frontend route
paths is the user-supplied plural override when a non-empty one is given, and
is the singular module name itself otherwise — the system never
auto-pluralizes; concretely, module category with plural categories gets
endpointBase categories. -/
theorem pluralization_override_or_name :
    (∀ (name p : String) (co : Option Bool), p ≠ "" →
        (buildSTRMModule { name := name, controllerOnly := co, plural := some p }).controller.endpointBase = p)
    ∧ (∀ (name : String) (co : Option Bool),
        (buildSTRMModule { name := name, controllerOnly := co, plural := none }).controller.endpointBase = name)
    ∧ (∀ (name p : String), p ≠ "" →
        ((buildSTRMModule { name := name, controllerOnly := some false, plural := some p }).pages.map
            STRMFERoute.path)
          = ["/" ++ p, "/" ++ p ++ "/:id"])
    ∧ (∀ name : String,
        ((buildSTRMModule { name := name, controllerOnly := some false, plural := none }).pages.map
            STRMFERoute.path)
          = ["/" ++ name, "/" ++ name ++ "/:id"])
    ∧ (buildSTRMModule
        { name := "category", controllerOnly := some true, plural := some "categories" }).controller.endpointBase
      = "categories" := by
  refine ⟨?_, ?_, ?_, ?_, ?_⟩
  · intro name p co hp
    simp [buildSTRMModule, jsStringOr, hp]
  · intro name co
    simp [buildSTRMModule, jsStringOr]
  · intro name p hp
    simp [buildSTRMModule, jsStringOr, jsTruthy, hp]
  · intro name
    simp [buildSTRMModule, jsStringOr, jsTruthy]
  · decide

theorem pluralization_override_or_name_witness :
    (buildSTRMModule
      { name := "category", controllerOnly := some true, plural := some "categories" }).controller.endpointBase
    = "categories" :=
  pluralization_override_or_name.1 "category" "categories" (some true) (by decide)

/-- C1 (counterexample): the generated route file embeds the current rendered
date in its header comment, so rebuilding from a byte-identical registry on
two different dates produces different output — the claim that an unchanged
registry always yields byte-identical route-file output is false as stated. -/
theorem routeRebuild_output_depends_on_date :
    (regenerateSTRMModuleRoutes envSample diskSample).2.routesFile
      ≠ (regenerateSTRMModuleRoutes { envSample with date := "1/2/2024" } diskSample).2.routesFile := by
  decide

/-- C1 (amended): the route rebuild is deterministic given the rendered
generation date and branding string: rebuilding from an equivalent registry
(identical modules map and iteration order, any appId or lastUpdated) with the
same date and branding produces byte-identical output, and rebuilding twice in
a row within the same date writes byte-identical output both times. -/
theorem routeRebuild_deterministic_given_date (env1 env2 : Env) (d1 d2 : Disk)
    (f1 f2 : STRMModulesFile)
    (hb : env1.brand = env2.brand) (hd : env1.date = env2.date)
    (hw1 : env1.writeRoutesFails = false) (hw2 : env2.writeRoutesFails = false)
    (hr1 : d1.registryFile = some f1) (hr2 : d2.registryFile = some f2)
    (hm : f1.modules = f2.modules) :
    (regenerateSTRMModuleRoutes env1 d1).2.routesFile
      = (regenerateSTRMModuleRoutes env2 d2).2.routesFile
    ∧ (regenerateSTRMModuleRoutes env1 ((regenerateSTRMModuleRoutes env1 d1).2)).2.routesFile
      = (regenerateSTRMModuleRoutes env1 d1).2.routesFile := by
  constructor
  · unfold regenerateSTRMModuleRoutes getSTRMModules
    rw [hr1, hr2]
    simp only [hw1, hw2, Bool.false_eq_true, if_false]
    rw [hb, hd]
    unfold routesFileString
    rw [hm]
  · unfold regenerateSTRMModuleRoutes getSTRMModules
    rw [hr1]
    simp [hw1, hr1]

theorem routeRebuild_deterministic_given_date_witness :
    (regenerateSTRMModuleRoutes envSample diskSample).2.routesFile
      = (regenerateSTRMModuleRoutes envSample diskSampleAlt).2.routesFile :=
  (routeRebuild_deterministic_given_date envSample envSample diskSample diskSampleAlt
    regSample regSampleAlt rfl rfl rfl rfl rfl rfl rfl).1

/-- C4: creating a module whose key already exists in the registry replaces
the descriptor stored under that key in place: the persisted registry's
modules map is the JS-object assignment result, it holds exactly one entry for
the key (the new call's descriptor), every other key's entry is unchanged, and
the map's size does not grow. -/
theorem module_upsert_unique_key (env : Env) (a : STRMModuleArgs) (d : Disk)
    (f : STRMModulesFile)
    (hreg : d.registryFile = some f)
    (hw : env.writeModulesFails = false)
    (hnd : (f.modules.map Prod.fst).Nodup)
    (hmem : recordLookup f.modules a.name ≠ none) :
    (createSTRMModule env a d).2.registryFile
      = some { appId := f.appId, lastUpdated := env.now,
               modules := recordSet f.modules a.name (buildSTRMModule a) }
    ∧ countKey (recordSet f.modules a.name (buildSTRMModule a)) a.name = 1
    ∧ recordLookup (recordSet f.modules a.name (buildSTRMModule a)) a.name
        = some (buildSTRMModule a)
    ∧ (∀ k, k ≠ a.name →
        recordLookup (recordSet f.modules a.name (buildSTRMModule a)) k
          = recordLookup f.modules k)
    ∧ (recordSet f.modules a.name (buildSTRMModule a)).length = f.modules.length :=
  ⟨createSTRMModule_registry env a d f hreg hw,
   countKey_recordSet_nodup f.modules a.name (buildSTRMModule a) hnd,
   recordLookup_recordSet_self f.modules a.name (buildSTRMModule a),
   fun k hk => recordLookup_recordSet_ne f.modules a.name k (buildSTRMModule a) hk,
   recordSet_length_of_mem f.modules a.name (buildSTRMModule a) hmem⟩

theorem module_upsert_unique_key_witness :
    countKey (recordSet regSample.modules argsTag.name (buildSTRMModule argsTag)) argsTag.name = 1
    ∧ (recordSet regSample.modules argsTag.name (buildSTRMModule argsTag)).length
        = regSample.modules.length :=
  ⟨(module_upsert_unique_key envSample argsTag diskSample regSample rfl rfl (by decide)
      (by decide)).2.1,
   (module_upsert_unique_key envSample argsTag diskSample regSample rfl rfl (by decide)
      (by decide)).2.2.2.2⟩

/-- C6: when the route-table rewrite raises an I/O error during module
creation, the pipeline's aggregate outcome is failure, no later step runs (no
auto-import append, no frontend directory or component), no rollback occurs —
the persisted registry update and the already-written model and controller
files remain on disk — and the prior route file is left as it was. -/
theorem route_write_failure_fail_fast (env : Env) (a : STRMModuleArgs) (d : Disk)
    (f : STRMModulesFile)
    (hreg : d.registryFile = some f)
    (h1 : env.writeModulesFails = false)
    (h2 : env.writeModelFails = false)
    (h3 : env.writeControllerFails = false)
    (h4 : env.writeRoutesFails = true) :
    (createSTRMModule env a d).1.success = false
    ∧ (createSTRMModule env a d).2.routesFile = d.routesFile
    ∧ (createSTRMModule env a d).2.autoImports = d.autoImports
    ∧ (createSTRMModule env a d).2.feDirs = d.feDirs
    ∧ (createSTRMModule env a d).2.feFiles = d.feFiles
    ∧ (createSTRMModule env a d).2.registryFile
        = some { appId := f.appId, lastUpdated := env.now,
                 modules := recordSet f.modules a.name (buildSTRMModule a) }
    ∧ recordLookup (createSTRMModule env a d).2.modelFiles (modelFilePath a.name)
        = some (modelFileContents env.brand env.date a.name)
    ∧ recordLookup (createSTRMModule env a d).2.controllerFiles (controllerFilePath a.name)
        = some (controllerFileContents env.brand env.date a.name) := by
  unfold createSTRMModule getSTRMModules
  rw [hreg]
  simp only [writeSTRMModulesFile, writeSTRMModelFile, writeSTRMControllerFile,
    regenerateSTRMModuleRoutes, getSTRMModules, h1, h2, h3, h4, Bool.false_eq_true,
    Bool.true_eq_false, if_false, if_true]
  simp [recordLookup_recordSet_self]

theorem route_write_failure_fail_fast_witness :
    (createSTRMModule envRoutesFail argsTag diskSample).1.success = false
    ∧ (createSTRMModule envRoutesFail argsTag diskSample).2.routesFile = diskSample.routesFile
    ∧ (createSTRMModule envRoutesFail argsTag diskSample).2.autoImports = diskSample.autoImports :=
  ⟨(route_write_failure_fail_fast envRoutesFail argsTag diskSample regSample rfl rfl rfl rfl
      rfl).1,
   (route_write_failure_fail_fast envRoutesFail argsTag diskSample regSample rfl rfl rfl rfl
      rfl).2.1,
   (route_write_failure_fail_fast envRoutesFail argsTag diskSample regSample rfl rfl rfl rfl
      rfl).2.2.1⟩

/-- C7 (counterexample): two successive successful registry persists performed
at the same clock reading both succeed yet leave lastUpdated at the very same
value, so lastUpdated does not strictly increase across successive successful
persists as the claim states — the code stamps the current time without
enforcing strict advance. -/
theorem lastUpdated_not_strictly_monotonic :
    (writeSTRMModulesFile envSample regSample diskSample).1.success = true
    ∧ (writeSTRMModulesFile envSample
        { regSample with lastUpdated := envSample.now }
        ((writeSTRMModulesFile envSample regSample diskSample).2)).1.success = true
    ∧ ((writeSTRMModulesFile envSample regSample diskSample).2).registryFile
        = some { appId := regSample.appId, lastUpdated := envSample.now,
                 modules := regSample.modules }
    ∧ ((writeSTRMModulesFile envSample
        { regSample with lastUpdated := envSample.now }
        ((writeSTRMModulesFile envSample regSample diskSample).2)).2).registryFile
        = ((writeSTRMModulesFile envSample regSample diskSample).2).registryFile
    ∧ strLtB envSample.now envSample.now = false := by
  refine ⟨rfl, rfl, rfl, rfl, ?_⟩
  decide

/-- C7 (amended): every successful registry persist stamps lastUpdated with
the clock reading of that write, and across two successive successful persists
lastUpdated strictly increases whenever the clock reading at the second write
is strictly greater than at the first. -/
theorem lastUpdated_stamped_monotonic_given_clock (env1 env2 : Env)
    (f g : STRMModulesFile) (d : Disk)
    (h1 : env1.writeModulesFails = false) (h2 : env2.writeModulesFails = false)
    (hclock : strLtB env1.now env2.now = true) :
    ((writeSTRMModulesFile env1 f d).2).registryFile
        = some { f with lastUpdated := env1.now }
    ∧ ((writeSTRMModulesFile env2 g ((writeSTRMModulesFile env1 f d).2)).2).registryFile
        = some { g with lastUpdated := env2.now }
    ∧ strLtB ({ f with lastUpdated := env1.now } : STRMModulesFile).lastUpdated
        ({ g with lastUpdated := env2.now } : STRMModulesFile).lastUpdated = true := by
  unfold writeSTRMModulesFile
  simp [h1, h2, hclock]

theorem lastUpdated_stamped_monotonic_given_clock_witness :
    ((writeSTRMModulesFile envSample regSample diskSample).2).registryFile
      = some { regSample with lastUpdated := envSample.now } :=
  (lastUpdated_stamped_monotonic_given_clock envSample envLater regSample regSample diskSample
    rfl rfl (by decide)).1

/-- C9 (implicit): the registry descriptor records controllerName and
modelName built from the lowercased module name, while the model and
controller files are written at paths built from the raw name — so the
recorded names agree with the paths actually written exactly when the name is
already entirely lowercase. -/
theorem registry_names_vs_written_paths (a : STRMModuleArgs) :
    (buildSTRMModule a).controller.controllerName = jsToLower a.name ++ "_controller"
    ∧ (buildSTRMModule a).controller.modelName = jsToLower a.name ++ ".py"
    ∧ (modelFilePath a.name = "strm_models/" ++ (buildSTRMModule a).controller.modelName
        ↔ jsToLower a.name = a.name)
    ∧ (controllerFilePath a.name
        = "strm_controllers/" ++ (buildSTRMModule a).controller.controllerName ++ ".py"
        ↔ jsToLower a.name = a.name)
    ∧ (∀ (env : Env) (d : Disk) (f : STRMModulesFile),
        d.registryFile = some f →
        env.writeModulesFails = false →
        env.writeModelFails = false →
        env.writeControllerFails = false →
        env.writeRoutesFails = false →
        env.appendImportsFails = false →
        recordLookup (createSTRMModule env a d).2.modelFiles (modelFilePath a.name)
            = some (modelFileContents env.brand env.date a.name)
        ∧ recordLookup (createSTRMModule env a d).2.controllerFiles (controllerFilePath a.name)
            = some (controllerFileContents env.brand env.date a.name)) := by
  refine ⟨rfl, rfl, ?_, ?_, ?_⟩
  · show ("strm_models/" ++ a.name ++ ".py" = "strm_models/" ++ (jsToLower a.name ++ ".py"))
        ↔ jsToLower a.name = a.name
    constructor
    · intro h
      have hd := congrArg String.data h
      simp only [String.data_append, List.append_assoc] at hd
      exact (String.ext ((List.append_left_inj _).mp ((List.append_right_inj _).mp hd))).symm
    · intro h
      rw [h, String.append_assoc]
  · have hsplit : ("_controller.py" : String).data
        = ("_controller" : String).data ++ (".py" : String).data := by decide
    show ("strm_controllers/" ++ a.name ++ "_controller.py"
          = "strm_controllers/" ++ (jsToLower a.name ++ "_controller") ++ ".py")
        ↔ jsToLower a.name = a.name
    constructor
    · intro h
      have hd := congrArg String.data h
      simp only [String.data_append, List.append_assoc, hsplit] at hd
      exact (String.ext ((List.append_left_inj _).mp ((List.append_right_inj _).mp hd))).symm
    · intro h
      rw [h]
      apply String.ext
      simp [String.data_append, List.append_assoc, hsplit]
  · intro env d f hreg h1 h2 h3 h4 h5
    rw [createSTRMModule_reduces env a d f hreg h1 h2 h3 h4 h5]
    simp only []
    rw [pipelineTail_snd]
    constructor
    · rw [(buildSTRMFrontendComponents_keeps_backend _ _ _ _).2.1]
      simp [diskAfterImports, recordLookup_recordSet_self]
    · rw [(buildSTRMFrontendComponents_keeps_backend _ _ _ _).2.2.1]
      simp [diskAfterImports, recordLookup_recordSet_self]

theorem registry_names_vs_written_paths_witness :
    recordLookup (createSTRMModule envSample argsTag diskSample).2.modelFiles
        (modelFilePath argsTag.name)
      = some (modelFileContents envSample.brand envSample.date argsTag.name) :=
  (((registry_names_vs_written_paths argsTag).2.2.2.2) envSample diskSample regSample
    rfl rfl rfl rfl rfl rfl).1

/-- C10 (implicit): for a non-controller-only module whose frontend pages
directory already exists (as when re-creating a module with the same
pluralization), module creation fails at the frontend-components step because
the non-recursive directory creation raises on an existing directory, while
everything the earlier steps wrote persists: the registry overwrite, the model
and controller files, the rewritten route table, and exactly one appended
auto-import line; no frontend file is written. -/
theorem frontend_dir_exists_partial_failure (env : Env) (a : STRMModuleArgs) (d : Disk)
    (f : STRMModulesFile) (cfg : STRMConfigFile)
    (hreg : d.registryFile = some f)
    (hcfg : d.configFile = some cfg)
    (_hco : jsTruthy a.controllerOnly = false)
    (hdir : ("strm_fe_" ++ cfg.frontend ++ "/src/pages/"
        ++ titleCase (jsStringOr a.plural a.name)) ∈ d.feDirs)
    (h1 : env.writeModulesFails = false)
    (h2 : env.writeModelFails = false)
    (h3 : env.writeControllerFails = false)
    (h4 : env.writeRoutesFails = false)
    (h5 : env.appendImportsFails = false) :
    (createSTRMModule env a d).1.success = false
    ∧ (createSTRMModule env a d).1.message = some "EEXIST"
    ∧ (createSTRMModule env a d).2.registryFile
        = some { appId := f.appId, lastUpdated := env.now,
                 modules := recordSet f.modules a.name (buildSTRMModule a) }
    ∧ recordLookup (createSTRMModule env a d).2.modelFiles (modelFilePath a.name)
        = some (modelFileContents env.brand env.date a.name)
    ∧ recordLookup (createSTRMModule env a d).2.controllerFiles (controllerFilePath a.name)
        = some (controllerFileContents env.brand env.date a.name)
    ∧ (createSTRMModule env a d).2.routesFile
        = some (routesFileString env.brand env.date
            { appId := f.appId, lastUpdated := env.now,
              modules := recordSet f.modules a.name (buildSTRMModule a) })
    ∧ (createSTRMModule env a d).2.autoImports = d.autoImports ++ [autoImportLine a.name]
    ∧ (createSTRMModule env a d).2.feDirs = d.feDirs
    ∧ (createSTRMModule env a d).2.feFiles = d.feFiles := by
  rw [createSTRMModule_reduces env a d f hreg h1 h2 h3 h4 h5]
  simp only [buildSTRMFrontendComponents, getSTRMModules, diskAfterImports, hcfg, hdir]
  simp [recordLookup_recordSet_self]

theorem frontend_dir_exists_partial_failure_witness :
    (createSTRMModule envSample argsTag diskWithFeDir).1.message = some "EEXIST"
    ∧ (createSTRMModule envSample argsTag diskWithFeDir).2.autoImports
        = diskWithFeDir.autoImports ++ [autoImportLine argsTag.name] :=
  ⟨(frontend_dir_exists_partial_failure envSample argsTag diskWithFeDir regSample
      { frontend := "react" } rfl rfl rfl (by decide) rfl rfl rfl rfl rfl).2.1,
   (frontend_dir_exists_partial_failure envSample argsTag diskWithFeDir regSample
      { frontend := "react" } rfl rfl rfl (by decide) rfl rfl rfl rfl rfl).2.2.2.2.2.2.1⟩
